import Mathlib

/-!
# Mixed-payment ledger: shallow embedding and verification

This file embeds the mixed-payment feature of the repository in Lean 4:

* the SQL migration `supabase/migrations/20250820173339_super_tooth.sql`
  (table `pdv_order_payments`, functions `get_order_payment_total`,
  `is_order_fully_paid`, trigger function `update_order_payment_status`
  attached AFTER INSERT OR UPDATE), and
* the client hook `useMixedPayment` (functions `getOrderPayments`,
  `addPaymentPartial`, `removePaymentPartial`, `getMixedPaymentData`,
  `validatePaymentAmount`) with its types from `types/mixed-payment.ts`.

Modelling conventions: currency amounts (`numeric(10,2)` in SQL, `number` in
the client) are embedded as exact rationals ℚ; timestamps as ℕ; uuids as
`String`. The database is a pair of row lists (sales and payments); the
fallible network fetch of the client is an `Except String` value standing for
the resolved supabase call. The human-readable messages produced through the
locale formatter `formatPrice` are embedded as an inductive message type
carrying the formatted rational.
-/

namespace ElitePedidos

/-- SQL `payment_type_enum`: the closed set of payment methods. -/
inductive PaymentType
  | dinheiro
  | pix
  | cartao_credito
  | cartao_debito
  | voucher
deriving DecidableEq, Repr

/-- SQL `payment_status_enum`: the payment lifecycle states. -/
inductive PaymentStatus
  | pending
  | confirmed
  | cancelled
deriving DecidableEq, Repr

/-- A row of the table `pdv_order_payments` (the client type `PaymentPartial`
is the same row as fetched by `select *`). -/
structure PdvOrderPayment where
  id : String
  order_id : String
  payment_type : PaymentType
  amount : ℚ
  status : PaymentStatus
  notes : Option String
  created_at : ℕ
  updated_at : ℕ
deriving DecidableEq, Repr

/-- Modelled from the spec: the external order entity `pdv_sales` is not part
of this repository's files; per the spec it owns a total-amount field and an
updated timestamp, and `is_order_fully_paid` reads its `total_amount` while
the trigger touches its `updated_at`. -/
structure PdvSale where
  id : String
  total_amount : ℚ
  updated_at : ℕ
deriving DecidableEq, Repr

/-- The database state the SQL functions and triggers act on. -/
structure DBState where
  sales : List PdvSale
  payments : List PdvOrderPayment
deriving DecidableEq, Repr

/-- SQL `get_order_payment_total(order_uuid)`: `COALESCE((SELECT SUM(amount)
FROM pdv_order_payments WHERE order_id = order_uuid AND status = 'confirmed'), 0)`.
The sum over the rows selected by the WHERE clause, 0 when there are none. -/
def get_order_payment_total (payments : List PdvOrderPayment) (order_uuid : String) : ℚ :=
  ((payments.filter fun p => p.order_id = order_uuid ∧ p.status = PaymentStatus.confirmed).map
    (fun p => p.amount)).sum

/-- SQL `is_order_fully_paid(order_uuid)`: reads `total_amount` of the matching
`pdv_sales` row into `order_total` (NULL when there is no row, modelled by
`Option`), computes the payments total, and returns
`COALESCE(payments_total, 0) >= COALESCE(order_total, 0)`; the payments total
is never NULL, so only the order total's COALESCE is live (`Option.getD 0`). -/
def is_order_fully_paid (sales : List PdvSale) (payments : List PdvOrderPayment)
    (order_uuid : String) : Bool :=
  let order_total : Option ℚ := ((sales.find? fun s => s.id = order_uuid).map
    (fun s => s.total_amount))
  let payments_total : ℚ := get_order_payment_total payments order_uuid
  payments_total ≥ order_total.getD 0

/-- The UPDATE of the trigger body: `UPDATE pdv_sales SET updated_at = now()
WHERE id = order_uuid`. -/
def touch_sales (sales : List PdvSale) (order_uuid : String) (now : ℕ) : List PdvSale :=
  sales.map fun s => if s.id = order_uuid then { s with updated_at := now } else s

/-- SQL trigger function `update_order_payment_status()`: if the row's order is
now fully paid, touch the order row's `updated_at`; otherwise do nothing. -/
def update_order_payment_status (st : DBState) (new_order_id : String) (now : ℕ) : DBState :=
  if is_order_fully_paid st.sales st.payments new_order_id then
    { st with sales := touch_sales st.sales new_order_id now }
  else st

/-- An INSERT into `pdv_order_payments`: the CHECK constraint `amount > 0` and
the foreign key `pdv_order_payments_order_id_fkey` (the row's `order_id` must
reference an existing `pdv_sales` row) both reject the row; otherwise the row
is appended and the AFTER INSERT trigger `trg_update_order_payment_status`
runs `update_order_payment_status` for the new row's order. -/
def insert_payment (st : DBState) (row : PdvOrderPayment) (now : ℕ) : Option DBState :=
  if 0 < row.amount ∧ (st.sales.find? fun s => s.id = row.order_id).isSome then
    some (update_order_payment_status { st with payments := st.payments ++ [row] }
      row.order_id now)
  else none

/-- An UPDATE of the `pdv_order_payments` row with id `pid` to the NEW column
values `row`: when no row matches, zero rows are affected and no trigger
fires; otherwise the CHECK constraint and the foreign key must hold for the
NEW row, the BEFORE UPDATE trigger `update_pdv_order_payments_updated_at`
stamps `NEW.updated_at = now()`, the matching row is replaced, and the
AFTER UPDATE trigger `trg_update_order_payment_status` runs
`update_order_payment_status` for `NEW.order_id`. -/
def update_payment (st : DBState) (pid : String) (row : PdvOrderPayment) (now : ℕ) :
    Option DBState :=
  if (st.payments.find? fun q => q.id = pid).isSome then
    if 0 < row.amount ∧ (st.sales.find? fun s => s.id = row.order_id).isSome then
      some (update_order_payment_status
        { st with payments := st.payments.map fun q =>
            if q.id = pid then { row with updated_at := now } else q }
        row.order_id now)
    else none
  else some st

/-- The client form data (`PaymentFormData` in `types/mixed-payment.ts`): note
it carries no status field. -/
structure PaymentFormData where
  payment_type : PaymentType
  amount : ℚ
  notes : Option String
deriving DecidableEq, Repr

/-- The row values `addPaymentPartial` inserts: the status is hard-coded to
`'confirmed'`; `newId` and `now` stand for the server-side column defaults
(`gen_random_uuid()`, `now()`). -/
def addPaymentPartial_row (orderId : String) (paymentData : PaymentFormData)
    (newId : String) (now : ℕ) : PdvOrderPayment :=
  { id := newId
    order_id := orderId
    payment_type := paymentData.payment_type
    amount := paymentData.amount
    status := PaymentStatus.confirmed
    notes := paymentData.notes
    created_at := now
    updated_at := now }

/-- Client `addPaymentPartial(orderId, paymentData)`: inserts the row built by
`addPaymentPartial_row` through the table's INSERT path. -/
def addPaymentPartial (st : DBState) (orderId : String) (paymentData : PaymentFormData)
    (newId : String) (now : ℕ) : Option DBState :=
  insert_payment st (addPaymentPartial_row orderId paymentData newId now) now

/-- Client `removePaymentPartial(paymentId)`: `delete().eq('id', paymentId)`.
No trigger fires: `trg_update_order_payment_status` is attached
AFTER INSERT OR UPDATE only, so the delete touches the payments list alone. -/
def removePaymentPartial (st : DBState) (paymentId : String) : DBState :=
  { st with payments := st.payments.filter fun p => p.id ≠ paymentId }

/-- The query of `getOrderPayments`: `select * ... eq('order_id', orderId)
.order('created_at', ascending: true)`, i.e. the order's rows sorted ascending
by creation time. -/
def queryOrderPayments (rows : List PdvOrderPayment) (orderId : String) :
    List PdvOrderPayment :=
  (rows.filter fun p => p.order_id = orderId).mergeSort fun a b => a.created_at ≤ b.created_at

/-- Client `getOrderPayments(orderId)`: on a failed fetch the catch block
returns `[]` and records the message in the hook's `error` field; on success
it returns the queried rows (and clears the error). The pair is
(returned list, error field). -/
def getOrderPayments (fetched : Except String (List PdvOrderPayment)) (orderId : String) :
    List PdvOrderPayment × Option String :=
  match fetched with
  | Except.error msg => ([], some msg)
  | Except.ok rows => (queryOrderPayments rows orderId, none)

/-- JS `Math.max` on two numbers. -/
def mathMax (a b : ℚ) : ℚ := if a ≤ b then b else a

/-- The client type `MixedPaymentData`. -/
structure MixedPaymentData where
  order_id : String
  order_total : ℚ
  payments : List PdvOrderPayment
  total_paid : ℚ
  remaining_amount : ℚ
  is_fully_paid : Bool
deriving DecidableEq, Repr

/-- Client `getMixedPaymentData(orderId, orderTotal)`: fetches the order's
payments, then `totalPaid = payments.reduce((sum, p) => sum + p.amount, 0)`
(no status filter), `remainingAmount = Math.max(0, orderTotal - totalPaid)`,
`isFullyPaid = totalPaid >= orderTotal`. -/
def getMixedPaymentData (fetched : Except String (List PdvOrderPayment))
    (orderId : String) (orderTotal : ℚ) : MixedPaymentData :=
  let payments := (getOrderPayments fetched orderId).1
  let totalPaid := payments.foldl (fun sum payment => sum + payment.amount) 0
  let remainingAmount := mathMax 0 (orderTotal - totalPaid)
  let isFullyPaid : Bool := totalPaid ≥ orderTotal
  { order_id := orderId
    order_total := orderTotal
    payments := payments
    total_paid := totalPaid
    remaining_amount := remainingAmount
    is_fully_paid := isFullyPaid }

/-- The two messages `validatePaymentAmount` can produce; the second carries
the rational that `formatPrice` would render (`Valor máximo permitido: <r>`). -/
inductive ValidationMessage
  | valorMaiorQueZero
  | valorMaximoPermitido (maxAmount : ℚ)
deriving DecidableEq, Repr

/-- The result record of `validatePaymentAmount`. -/
structure ValidationResult where
  isValid : Bool
  message : Option ValidationMessage
deriving DecidableEq, Repr

/-- Client `validatePaymentAmount(amount, currentTotal, orderTotal)`:
`amount <= 0` is rejected with 'Valor deve ser maior que zero'; otherwise
`currentTotal + amount > orderTotal` is rejected with
'Valor máximo permitido: formatPrice(orderTotal - currentTotal)'; otherwise
the amount is valid. -/
def validatePaymentAmount (amount currentTotal orderTotal : ℚ) : ValidationResult :=
  if amount ≤ 0 then
    { isValid := false, message := some ValidationMessage.valorMaiorQueZero }
  else if currentTotal + amount > orderTotal then
    { isValid := false
      message := some (ValidationMessage.valorMaximoPermitido (orderTotal - currentTotal)) }
  else
    { isValid := true, message := none }

/-- The spec's paid total, stated in its own words for comparison: the sum of
the amounts of the order's payments whose status is confirmed. -/
def spec_paid_total (payments : List PdvOrderPayment) (order_uuid : String) : ℚ :=
  ((payments.filter fun p => p.order_id = order_uuid ∧ p.status = PaymentStatus.confirmed).map
    (fun p => p.amount)).sum

/-! ## Helper lemmas -/

theorem foldl_amount_eq_sum (l : List PdvOrderPayment) (init : ℚ) :
    l.foldl (fun sum payment => sum + payment.amount) init
      = init + (l.map (fun p => p.amount)).sum := by
  induction l generalizing init with
  | nil => simp
  | cons p l ih => simp [List.foldl_cons, ih, add_assoc]

theorem total_paid_eq_sum (fetched : Except String (List PdvOrderPayment))
    (oid : String) (T : ℚ) :
    (getMixedPaymentData fetched oid T).total_paid
      = (((getOrderPayments fetched oid).1).map (fun p => p.amount)).sum := by
  simp [getMixedPaymentData, foldl_amount_eq_sum]

theorem query_map_sum (rows : List PdvOrderPayment) (oid : String)
    (f : PdvOrderPayment → ℚ) :
    ((queryOrderPayments rows oid).map f).sum
      = (((rows.filter fun p => p.order_id = oid).map f)).sum := by
  have h := (rows.filter fun p => p.order_id = oid).mergeSort_perm
    (fun a b => a.created_at ≤ b.created_at)
  exact (h.map f).sum_eq

theorem get_order_payment_total_cons (p : PdvOrderPayment) (l : List PdvOrderPayment)
    (oid : String) :
    get_order_payment_total (p :: l) oid
      = (if p.order_id = oid ∧ p.status = PaymentStatus.confirmed then p.amount else 0)
        + get_order_payment_total l oid := by
  by_cases h : p.order_id = oid ∧ p.status = PaymentStatus.confirmed
  · simp [get_order_payment_total, List.filter_cons, h]
  · simp [get_order_payment_total, List.filter_cons, h]

/-! ## C1: paid totals of server and client -/

/-- C1 (counterexample): with a single pending payment of 10 for order "o1",
the server total is 0 but the client's `total_paid` is 10 — the client
aggregation does not exclude pending payments, contrary to the claim that in
both aggregations only confirmed payments contribute. -/
theorem C1_counterexample :
    get_order_payment_total
        [{ id := "p1", order_id := "o1", payment_type := PaymentType.pix, amount := 10,
           status := PaymentStatus.pending, notes := none, created_at := 0, updated_at := 0 }]
        "o1" = 0
    ∧ (getMixedPaymentData (Except.ok
        [{ id := "p1", order_id := "o1", payment_type := PaymentType.pix, amount := 10,
           status := PaymentStatus.pending, notes := none, created_at := 0, updated_at := 0 }])
        "o1" 100).total_paid = 10
    ∧ (10 : ℚ) ≠ 0 := by
  refine ⟨?_, ?_, by norm_num⟩
  · simp [get_order_payment_total]
  · norm_num [getMixedPaymentData, getOrderPayments, queryOrderPayments]

/-- C1 (amended): the server `get_order_payment_total` sums exactly the
confirmed payments of the order (0 when none); the client
`getMixedPaymentData` sums the amounts of all fetched payments of the order
regardless of status; the two agree when every fetched payment is confirmed. -/
theorem C1_paid_total (rows : List PdvOrderPayment) (oid : String) (T : ℚ) :
    get_order_payment_total rows oid = spec_paid_total rows oid
    ∧ (getMixedPaymentData (Except.ok rows) oid T).total_paid
        = ((rows.filter fun p => p.order_id = oid).map (fun p => p.amount)).sum
    ∧ ((∀ p ∈ rows, p.status = PaymentStatus.confirmed) →
        (getMixedPaymentData (Except.ok rows) oid T).total_paid
          = get_order_payment_total rows oid) := by
  have hclient : (getMixedPaymentData (Except.ok rows) oid T).total_paid
      = ((rows.filter fun p => p.order_id = oid).map (fun p => p.amount)).sum := by
    rw [total_paid_eq_sum]
    show ((queryOrderPayments rows oid).map (fun p => p.amount)).sum = _
    exact query_map_sum rows oid _
  refine ⟨rfl, hclient, ?_⟩
  intro hall
  rw [hclient]
  have hfilter : (rows.filter fun p => p.order_id = oid)
      = rows.filter fun p => p.order_id = oid ∧ p.status = PaymentStatus.confirmed := by
    apply List.filter_congr
    intro x hx
    simp [hall x hx]
  rw [get_order_payment_total, hfilter]

/-- C1 (witness): the amended theorem applied at a one-element all-confirmed
ledger. -/
theorem C1_paid_total_witness :
    (getMixedPaymentData (Except.ok
        [{ id := "p1", order_id := "o1", payment_type := PaymentType.pix, amount := 40,
           status := PaymentStatus.confirmed, notes := none, created_at := 0,
           updated_at := 0 }]) "o1" 100).total_paid
      = get_order_payment_total
          [{ id := "p1", order_id := "o1", payment_type := PaymentType.pix, amount := 40,
             status := PaymentStatus.confirmed, notes := none, created_at := 0,
             updated_at := 0 }] "o1" :=
  (C1_paid_total _ "o1" 100).2.2 (by
    intro p hp
    rw [List.mem_singleton] at hp
    subst hp
    rfl)

/-! ## C2: the fully-paid flag -/

/-- C2: when the order row exists with total `sale.total_amount`, the server's
`is_order_fully_paid` is true exactly when the confirmed total reaches it; the
client's `is_fully_paid` flag is true exactly when its own `total_paid`
reaches the order total — both use ≥, so exact payment and overpayment count
as fully paid. -/
theorem C2_fully_paid_iff (sales : List PdvSale) (rows : List PdvOrderPayment)
    (oid : String) (sale : PdvSale) (fetched : Except String (List PdvOrderPayment))
    (T : ℚ) (h : (sales.find? fun s => s.id = oid) = some sale) :
    (is_order_fully_paid sales rows oid = true
      ↔ get_order_payment_total rows oid ≥ sale.total_amount)
    ∧ ((getMixedPaymentData fetched oid T).is_fully_paid = true
      ↔ (getMixedPaymentData fetched oid T).total_paid ≥ T) := by
  constructor
  · simp [is_order_fully_paid, h]
  · simp [getMixedPaymentData]

/-- C2 (witness): an order of total 100 with one confirmed payment of 100 is
fully paid on the server, and the client flag agrees with its paid total. -/
theorem C2_fully_paid_witness :
    is_order_fully_paid [{ id := "o1", total_amount := 100, updated_at := 0 }]
        [{ id := "p1", order_id := "o1", payment_type := PaymentType.dinheiro, amount := 100,
           status := PaymentStatus.confirmed, notes := none, created_at := 0,
           updated_at := 0 }] "o1" = true :=
  ((C2_fully_paid_iff _ _ "o1" { id := "o1", total_amount := 100, updated_at := 0 }
      (Except.ok []) 100 (by rfl)).1).mpr
    (by norm_num [get_order_payment_total])

/-! ## C3: the remaining amount -/

/-- C3: the client's `remaining_amount` equals `max 0 (T - total_paid)` and is
never negative, also when the paid total exceeds the order total. -/
theorem C3_remaining_amount (fetched : Except String (List PdvOrderPayment))
    (oid : String) (T : ℚ) :
    (getMixedPaymentData fetched oid T).remaining_amount
      = max 0 (T - (getMixedPaymentData fetched oid T).total_paid)
    ∧ 0 ≤ (getMixedPaymentData fetched oid T).remaining_amount := by
  have hmax : ∀ a b : ℚ, mathMax a b = max a b := by
    intro a b
    rw [mathMax, max_def]
  have h1 : (getMixedPaymentData fetched oid T).remaining_amount
      = max 0 (T - (getMixedPaymentData fetched oid T).total_paid) := by
    simp [getMixedPaymentData, hmax]
  exact ⟨h1, h1 ▸ le_max_left 0 _⟩

/-! ## C4: the insert/update trigger -/

theorem touch_sales_cons (s : PdvSale) (l : List PdvSale) (oid : String) (now : ℕ) :
    touch_sales (s :: l) oid now
      = (if s.id = oid then { s with updated_at := now } else s) :: touch_sales l oid now := rfl

theorem update_order_payment_status_payments (st : DBState) (oid : String) (now : ℕ) :
    (update_order_payment_status st oid now).payments = st.payments := by
  unfold update_order_payment_status
  split
  · rfl
  · rfl

theorem find?_touch_sales (sales : List PdvSale) (oid oid' : String) (now : ℕ) :
    (((touch_sales sales oid now).find? fun s => s.id = oid').map fun s => s.total_amount)
      = ((sales.find? fun s => s.id = oid').map fun s => s.total_amount) := by
  induction sales with
  | nil => rfl
  | cons s l ih =>
    rw [touch_sales_cons]
    by_cases h : s.id = oid
    · rw [if_pos h]
      by_cases h' : s.id = oid'
      · rw [List.find?_cons_of_pos _ (by simp [h']), List.find?_cons_of_pos _ (by simp [h'])]
        rfl
      · rw [List.find?_cons_of_neg _ (by simp [h']), List.find?_cons_of_neg _ (by simp [h']),
          ih]
    · rw [if_neg h]
      by_cases h' : s.id = oid'
      · rw [List.find?_cons_of_pos _ (by simp [h']), List.find?_cons_of_pos _ (by simp [h'])]
      · rw [List.find?_cons_of_neg _ (by simp [h']), List.find?_cons_of_neg _ (by simp [h']),
          ih]

theorem is_order_fully_paid_touch (sales : List PdvSale) (payments : List PdvOrderPayment)
    (oid oid' : String) (now : ℕ) :
    is_order_fully_paid (touch_sales sales oid now) payments oid'
      = is_order_fully_paid sales payments oid' := by
  unfold is_order_fully_paid
  rw [find?_touch_sales]

theorem touch_sales_idem (sales : List PdvSale) (oid : String) (now : ℕ) :
    touch_sales (touch_sales sales oid now) oid now = touch_sales sales oid now := by
  unfold touch_sales
  rw [List.map_map]
  apply List.map_congr_left
  intro s _
  by_cases h : s.id = oid
  · simp [Function.comp, h]
  · simp [Function.comp, h]

theorem touch_sales_pointwise (sales : List PdvSale) (oid : String) (now : ℕ) :
    List.Forall₂ (fun s s' : PdvSale =>
        s'.id = s.id ∧ s'.total_amount = s.total_amount
          ∧ (s.id ≠ oid → s' = s) ∧ (s.id = oid → s'.updated_at = now))
      sales (touch_sales sales oid now) := by
  induction sales with
  | nil => exact List.Forall₂.nil
  | cons s l ih =>
    rw [touch_sales_cons]
    refine List.Forall₂.cons ?_ ih
    by_cases h : s.id = oid
    · simp [h]
    · simp [h]

theorem update_order_payment_status_idem (st : DBState) (oid : String) (now : ℕ) :
    update_order_payment_status (update_order_payment_status st oid now) oid now
      = update_order_payment_status st oid now := by
  by_cases h : is_order_fully_paid st.sales st.payments oid = true
  · have h2 : is_order_fully_paid (touch_sales st.sales oid now) st.payments oid = true := by
      rw [is_order_fully_paid_touch]
      exact h
    simp [update_order_payment_status, h, h2, touch_sales_idem]
  · simp [update_order_payment_status, h]

/-- C4: both write paths of the payments table fire the recompute trigger.
A successful INSERT (`amount > 0`, order exists) appends exactly the given
row; a successful UPDATE of an existing payment row replaces exactly that row
(with `updated_at` stamped by the BEFORE UPDATE trigger). In both cases the
AFTER trigger re-evaluates `is_order_fully_paid` for the row's order on the
new ledger: when it is false the sales rows are left entirely unchanged; when
it is true every sale keeps its id and total, sales of other orders are
unchanged, the matching order rows get `updated_at = now`, and re-running the
trigger on the resulting state changes nothing (idempotent). -/
theorem C4_payment_trigger (st : DBState) (row : PdvOrderPayment) (pid : String)
    (now : ℕ) (hamt : 0 < row.amount)
    (hfk : (st.sales.find? fun s => s.id = row.order_id).isSome = true)
    (hpid : (st.payments.find? fun q => q.id = pid).isSome = true) :
    (∃ st', insert_payment st row now = some st'
      ∧ st'.payments = st.payments ++ [row]
      ∧ (is_order_fully_paid st.sales (st.payments ++ [row]) row.order_id = false →
          st'.sales = st.sales)
      ∧ (is_order_fully_paid st.sales (st.payments ++ [row]) row.order_id = true →
          List.Forall₂ (fun s s' : PdvSale =>
              s'.id = s.id ∧ s'.total_amount = s.total_amount
                ∧ (s.id ≠ row.order_id → s' = s) ∧ (s.id = row.order_id → s'.updated_at = now))
            st.sales st'.sales)
      ∧ update_order_payment_status st' row.order_id now = st')
    ∧ (∃ st', update_payment st pid row now = some st'
      ∧ st'.payments = st.payments.map (fun q =>
          if q.id = pid then { row with updated_at := now } else q)
      ∧ (is_order_fully_paid st.sales
            (st.payments.map fun q => if q.id = pid then { row with updated_at := now } else q)
            row.order_id = false →
          st'.sales = st.sales)
      ∧ (is_order_fully_paid st.sales
            (st.payments.map fun q => if q.id = pid then { row with updated_at := now } else q)
            row.order_id = true →
          List.Forall₂ (fun s s' : PdvSale =>
              s'.id = s.id ∧ s'.total_amount = s.total_amount
                ∧ (s.id ≠ row.order_id → s' = s) ∧ (s.id = row.order_id → s'.updated_at = now))
            st.sales st'.sales)
      ∧ update_order_payment_status st' row.order_id now = st') := by
  constructor
  · refine ⟨update_order_payment_status { st with payments := st.payments ++ [row] }
        row.order_id now, ?_, update_order_payment_status_payments _ _ _, ?_, ?_,
        update_order_payment_status_idem _ _ _⟩
    · unfold insert_payment
      rw [if_pos ⟨hamt, hfk⟩]
    · intro hfull
      simp [update_order_payment_status, hfull]
    · intro hfull
      simp only [update_order_payment_status, hfull, if_true]
      exact touch_sales_pointwise st.sales row.order_id now
  · refine ⟨update_order_payment_status
        { st with payments := st.payments.map fun q =>
            if q.id = pid then { row with updated_at := now } else q }
        row.order_id now, ?_, update_order_payment_status_payments _ _ _, ?_, ?_,
        update_order_payment_status_idem _ _ _⟩
    · unfold update_payment
      rw [if_pos hpid, if_pos ⟨hamt, hfk⟩]
    · intro hfull
      simp [update_order_payment_status, hfull]
    · intro hfull
      simp only [update_order_payment_status, hfull, if_true]
      exact touch_sales_pointwise st.sales row.order_id now

/-- C4 (witness): on an order of total 100 holding one confirmed payment of
40, inserting a confirmed payment row and updating the existing payment to 100
both succeed and both leave the re-run trigger with nothing to change. -/
theorem C4_payment_trigger_witness :
    (∃ st', insert_payment
        { sales := [{ id := "o1", total_amount := 100, updated_at := 0 }]
          payments := [{ id := "p1", order_id := "o1", payment_type := PaymentType.pix,
                         amount := 40, status := PaymentStatus.confirmed, notes := none,
                         created_at := 0, updated_at := 0 }] }
        { id := "p2", order_id := "o1", payment_type := PaymentType.dinheiro, amount := 100,
          status := PaymentStatus.confirmed, notes := none, created_at := 7, updated_at := 7 }
        7 = some st'
      ∧ update_order_payment_status st' "o1" 7 = st')
    ∧ (∃ st', update_payment
        { sales := [{ id := "o1", total_amount := 100, updated_at := 0 }]
          payments := [{ id := "p1", order_id := "o1", payment_type := PaymentType.pix,
                         amount := 40, status := PaymentStatus.confirmed, notes := none,
                         created_at := 0, updated_at := 0 }] }
        "p1"
        { id := "p2", order_id := "o1", payment_type := PaymentType.dinheiro, amount := 100,
          status := PaymentStatus.confirmed, notes := none, created_at := 7, updated_at := 7 }
        7 = some st'
      ∧ update_order_payment_status st' "o1" 7 = st') := by
  obtain ⟨⟨s1, h1, _, _, _, h5⟩, ⟨s2, g1, _, _, _, g5⟩⟩ := C4_payment_trigger
    { sales := [{ id := "o1", total_amount := 100, updated_at := 0 }]
      payments := [{ id := "p1", order_id := "o1", payment_type := PaymentType.pix,
                     amount := 40, status := PaymentStatus.confirmed, notes := none,
                     created_at := 0, updated_at := 0 }] }
    { id := "p2", order_id := "o1", payment_type := PaymentType.dinheiro, amount := 100,
      status := PaymentStatus.confirmed, notes := none, created_at := 7, updated_at := 7 }
    "p1" 7 (by norm_num) rfl rfl
  exact ⟨⟨s1, h1, h5⟩, ⟨s2, g1, g5⟩⟩

/-! ## C5: client-side validation of an amount -/

/-- C5 (counterexample): amount −5 with confirmed total 100 against an order
total of 50 satisfies `currentConfirmedTotal + amount > orderTotal`, and is
rejected — but with the 'Valor deve ser maior que zero' message, not the
claimed "maximum allowed amount" message. -/
theorem C5_counterexample :
    (100 : ℚ) + (-5) > 50
    ∧ validatePaymentAmount (-5) 100 50
        = { isValid := false, message := some ValidationMessage.valorMaiorQueZero }
    ∧ some ValidationMessage.valorMaiorQueZero
        ≠ some (ValidationMessage.valorMaximoPermitido ((50 : ℚ) - 100)) := by
  refine ⟨by norm_num, ?_, by simp⟩
  norm_num [validatePaymentAmount]

/-- C5 (amended): a non-positive amount is always rejected with the
'greater than zero' message; a positive amount exceeding the remaining balance
is rejected with the maximum-allowed message carrying
`orderTotal - currentTotal`; a positive amount within the balance is
accepted. -/
theorem C5_validate (amount currentTotal orderTotal : ℚ) :
    (amount ≤ 0 → validatePaymentAmount amount currentTotal orderTotal
        = { isValid := false, message := some ValidationMessage.valorMaiorQueZero })
    ∧ (0 < amount → currentTotal + amount > orderTotal →
        validatePaymentAmount amount currentTotal orderTotal
          = { isValid := false
              message := some (ValidationMessage.valorMaximoPermitido
                (orderTotal - currentTotal)) })
    ∧ (0 < amount → currentTotal + amount ≤ orderTotal →
        validatePaymentAmount amount currentTotal orderTotal
          = { isValid := true, message := none }) := by
  refine ⟨?_, ?_, ?_⟩
  · intro h
    rw [validatePaymentAmount, if_pos h]
  · intro h1 h2
    rw [validatePaymentAmount, if_neg (not_le.mpr h1), if_pos h2]
  · intro h1 h2
    rw [validatePaymentAmount, if_neg (not_le.mpr h1), if_neg (not_lt.mpr h2)]

/-- C5 (witness): 30 on top of 50 against a total of 100 is accepted; 60 on
top of 50 against 100 is rejected with maximum allowed 50. -/
theorem C5_validate_witness :
    validatePaymentAmount 30 50 100 = { isValid := true, message := none }
    ∧ validatePaymentAmount 60 50 100
        = { isValid := false
            message := some (ValidationMessage.valorMaximoPermitido 50) } := by
  constructor
  · exact (C5_validate 30 50 100).2.2 (by norm_num) (by norm_num)
  · have h := (C5_validate 60 50 100).2.1 (by norm_num) (by norm_num)
    rw [h]
    norm_num

/-! ## C6: non-positive amounts -/

/-- C6: an amount ≤ 0 is rejected on both sides: the client validation returns
`isValid = false` with 'Valor deve ser maior que zero', and the table's
CHECK constraint `amount > 0` makes the INSERT fail. -/
theorem C6_nonpositive_rejected (amount currentTotal orderTotal : ℚ) (st : DBState)
    (row : PdvOrderPayment) (now : ℕ) (h : amount ≤ 0) (hrow : row.amount = amount) :
    validatePaymentAmount amount currentTotal orderTotal
      = { isValid := false, message := some ValidationMessage.valorMaiorQueZero }
    ∧ insert_payment st row now = none := by
  constructor
  · rw [validatePaymentAmount, if_pos h]
  · unfold insert_payment
    rw [if_neg]
    intro hc
    rw [hrow] at hc
    exact absurd hc.1 (not_lt.mpr h)

/-- C6 (witness): the theorem at amount 0. -/
theorem C6_nonpositive_rejected_witness :
    validatePaymentAmount 0 50 100
      = { isValid := false, message := some ValidationMessage.valorMaiorQueZero }
    ∧ insert_payment { sales := [], payments := [] }
        { id := "p1", order_id := "o1", payment_type := PaymentType.voucher, amount := 0,
          status := PaymentStatus.confirmed, notes := none, created_at := 0, updated_at := 0 }
        0 = none :=
  C6_nonpositive_rejected 0 50 100 { sales := [], payments := [] }
    { id := "p1", order_id := "o1", payment_type := PaymentType.voucher, amount := 0,
      status := PaymentStatus.confirmed, notes := none, created_at := 0, updated_at := 0 }
    0 (by norm_num) rfl

/-! ## C7: deletes never fire the trigger -/

theorem get_order_payment_total_remove (l : List PdvOrderPayment) (pid : String)
    (p : PdvOrderPayment) (oid : String)
    (huniq : l.filter (fun q => q.id = pid) = [p])
    (hconf : p.status = PaymentStatus.confirmed) (hord : p.order_id = oid) :
    get_order_payment_total (l.filter fun q => q.id ≠ pid) oid
      = get_order_payment_total l oid - p.amount := by
  induction l with
  | nil => simp at huniq
  | cons q l ih =>
    by_cases h : q.id = pid
    · rw [List.filter_cons_of_pos (by simp [h])] at huniq
      injection huniq with hqp hrest
      have hall : ∀ x ∈ l, ¬ (x.id = pid) := by
        intro x hx
        have := List.filter_eq_nil_iff.mp hrest x hx
        simpa using this
      rw [List.filter_cons_of_neg (by simp [h]),
        List.filter_eq_self.mpr (fun x hx => by simp [hall x hx]),
        get_order_payment_total_cons, hqp, if_pos ⟨hord, hconf⟩]
      ring
    · rw [List.filter_cons_of_neg (by simp [h])] at huniq
      rw [List.filter_cons_of_pos (by simp [h]), get_order_payment_total_cons,
        get_order_payment_total_cons, ih huniq]
      ring

/-- C7: deleting a payment row runs no trigger (the recompute trigger is
attached AFTER INSERT OR UPDATE only), so the sales rows are untouched; when
the deleted id matched exactly one row, a confirmed payment of the order, the
recomputed paid total drops by exactly that row's amount. -/
theorem C7_delete_no_trigger (st : DBState) (pid : String) (p : PdvOrderPayment)
    (oid : String) (huniq : st.payments.filter (fun q => q.id = pid) = [p])
    (hconf : p.status = PaymentStatus.confirmed) (hord : p.order_id = oid) :
    (removePaymentPartial st pid).sales = st.sales
    ∧ get_order_payment_total (removePaymentPartial st pid).payments oid
        = get_order_payment_total st.payments oid - p.amount :=
  ⟨rfl, get_order_payment_total_remove st.payments pid p oid huniq hconf hord⟩

/-- C7 (witness): deleting the only confirmed payment (100) of a fully-paid
order of total 100 leaves the order row as it was while the recomputed flag
flips back to false. -/
theorem C7_delete_no_trigger_witness :
    is_order_fully_paid [{ id := "o1", total_amount := 100, updated_at := 0 }]
        [{ id := "p1", order_id := "o1", payment_type := PaymentType.dinheiro, amount := 100,
           status := PaymentStatus.confirmed, notes := none, created_at := 0,
           updated_at := 0 }] "o1" = true
    ∧ (removePaymentPartial
        { sales := [{ id := "o1", total_amount := 100, updated_at := 0 }]
          payments := [{ id := "p1", order_id := "o1", payment_type := PaymentType.dinheiro,
                         amount := 100, status := PaymentStatus.confirmed, notes := none,
                         created_at := 0, updated_at := 0 }] } "p1").sales
        = [{ id := "o1", total_amount := 100, updated_at := 0 }]
    ∧ get_order_payment_total (removePaymentPartial
        { sales := [{ id := "o1", total_amount := 100, updated_at := 0 }]
          payments := [{ id := "p1", order_id := "o1", payment_type := PaymentType.dinheiro,
                         amount := 100, status := PaymentStatus.confirmed, notes := none,
                         created_at := 0, updated_at := 0 }] } "p1").payments "o1"
        = get_order_payment_total
            [{ id := "p1", order_id := "o1", payment_type := PaymentType.dinheiro,
               amount := 100, status := PaymentStatus.confirmed, notes := none,
               created_at := 0, updated_at := 0 }] "o1" - 100
    ∧ is_order_fully_paid [{ id := "o1", total_amount := 100, updated_at := 0 }]
        ([{ id := "p1", order_id := "o1", payment_type := PaymentType.dinheiro, amount := 100,
            status := PaymentStatus.confirmed, notes := none, created_at := 0,
            updated_at := 0 }].filter fun q => q.id ≠ "p1") "o1" = false := by
  have h := C7_delete_no_trigger
    { sales := [{ id := "o1", total_amount := 100, updated_at := 0 }]
      payments := [{ id := "p1", order_id := "o1", payment_type := PaymentType.dinheiro,
                     amount := 100, status := PaymentStatus.confirmed, notes := none,
                     created_at := 0, updated_at := 0 }] } "p1"
    { id := "p1", order_id := "o1", payment_type := PaymentType.dinheiro, amount := 100,
      status := PaymentStatus.confirmed, notes := none, created_at := 0, updated_at := 0 }
    "o1" (by simp) rfl rfl
  refine ⟨?_, h.1, h.2, ?_⟩
  · norm_num [is_order_fully_paid, get_order_payment_total, List.find?]
  · norm_num [is_order_fully_paid, get_order_payment_total, List.find?]

/-! ## C8: the order total cannot be found -/

/-- C8: when no `pdv_sales` row matches the order id, the NULL order total is
coalesced to 0, so `is_order_fully_paid` is true exactly when the confirmed
paid total is ≥ 0 — in particular any positive confirmed payment (and even an
empty ledger) makes the order count as fully paid. -/
theorem C8_missing_order (sales : List PdvSale) (payments : List PdvOrderPayment)
    (oid : String) (h : (sales.find? fun s => s.id = oid) = none) :
    is_order_fully_paid sales payments oid = true
      ↔ 0 ≤ get_order_payment_total payments oid := by
  simp [is_order_fully_paid, h]

/-- C8 (witness): with no sales rows at all, a single positive confirmed
payment makes the order fully paid. -/
theorem C8_missing_order_witness :
    is_order_fully_paid []
        [{ id := "p1", order_id := "o1", payment_type := PaymentType.pix, amount := 10,
           status := PaymentStatus.confirmed, notes := none, created_at := 0,
           updated_at := 0 }] "o1" = true :=
  (C8_missing_order [] _ "o1" rfl).mpr (by norm_num [get_order_payment_total])

/-! ## C9: fetching an order's payments -/

/-- C9: a failed fetch makes `getOrderPayments` return the empty list while
recording the message in the hook's error field; a successful fetch returns,
with no error, exactly the order's payments (a permutation of the rows whose
`order_id` matches) sorted ascending by creation time. -/
theorem C9_getOrderPayments (msg : String) (orderId : String)
    (rows : List PdvOrderPayment) :
    getOrderPayments (Except.error msg) orderId = ([], some msg)
    ∧ (getOrderPayments (Except.ok rows) orderId).2 = none
    ∧ (getOrderPayments (Except.ok rows) orderId).1.Perm
        (rows.filter fun p => p.order_id = orderId)
    ∧ List.Pairwise (fun a b => a.created_at ≤ b.created_at)
        (getOrderPayments (Except.ok rows) orderId).1 := by
  refine ⟨rfl, rfl, List.mergeSort_perm _ _, ?_⟩
  have htrans : ∀ a b c : PdvOrderPayment,
      (fun a b : PdvOrderPayment => decide (a.created_at ≤ b.created_at)) a b = true →
      (fun a b : PdvOrderPayment => decide (a.created_at ≤ b.created_at)) b c = true →
      (fun a b : PdvOrderPayment => decide (a.created_at ≤ b.created_at)) a c = true := by
    intro a b c hab hbc
    simp only [decide_eq_true_eq] at hab hbc ⊢
    exact le_trans hab hbc
  have htotal : ∀ a b : PdvOrderPayment,
      ((fun a b : PdvOrderPayment => decide (a.created_at ≤ b.created_at)) a b
        || (fun a b : PdvOrderPayment => decide (a.created_at ≤ b.created_at)) b a) = true := by
    intro a b
    simp only [Bool.or_eq_true, decide_eq_true_eq]
    exact Nat.le_total a.created_at b.created_at
  have h := List.sorted_mergeSort htrans htotal
    (rows.filter fun p => p.order_id = orderId)
  exact h.imp fun hab => of_decide_eq_true hab

/-! ## C10: the client only creates confirmed payments -/

/-- C10: `addPaymentPartial` hard-codes `status: 'confirmed'` in the inserted
values (and `PaymentFormData` carries no status field), so whenever the insert
succeeds the appended row is exactly the confirmed row built from the form. -/
theorem C10_status_confirmed (st : DBState) (orderId : String) (pd : PaymentFormData)
    (newId : String) (now : ℕ) (st' : DBState) :
    (addPaymentPartial_row orderId pd newId now).status = PaymentStatus.confirmed
    ∧ (addPaymentPartial st orderId pd newId now = some st' →
        st'.payments = st.payments ++ [addPaymentPartial_row orderId pd newId now]) := by
  refine ⟨rfl, ?_⟩
  intro h
  unfold addPaymentPartial insert_payment at h
  split at h
  · injection h with h'
    rw [← h']
    exact update_order_payment_status_payments _ _ _
  · exact absurd h (by simp)

/-- C10 (witness): inserting a 10-payment through the client path into an
existing order appends the confirmed row built from the form. -/
theorem C10_status_confirmed_witness :
    (addPaymentPartial_row "o1"
        { payment_type := PaymentType.pix, amount := 10, notes := none } "p1" 3).status
      = PaymentStatus.confirmed
    ∧ ({ sales := [{ id := "o1", total_amount := 100, updated_at := 0 }]
         payments := [addPaymentPartial_row "o1"
           { payment_type := PaymentType.pix, amount := 10, notes := none } "p1" 3] } :
          DBState).payments
        = ([] : List PdvOrderPayment) ++ [addPaymentPartial_row "o1"
            { payment_type := PaymentType.pix, amount := 10, notes := none } "p1" 3] := by
  refine ⟨(C10_status_confirmed
      { sales := [{ id := "o1", total_amount := 100, updated_at := 0 }], payments := [] }
      "o1" { payment_type := PaymentType.pix, amount := 10, notes := none } "p1" 3
      { sales := [{ id := "o1", total_amount := 100, updated_at := 0 }]
        payments := [addPaymentPartial_row "o1"
          { payment_type := PaymentType.pix, amount := 10, notes := none } "p1" 3] }).1,
    (C10_status_confirmed
      { sales := [{ id := "o1", total_amount := 100, updated_at := 0 }], payments := [] }
      "o1" { payment_type := PaymentType.pix, amount := 10, notes := none } "p1" 3
      { sales := [{ id := "o1", total_amount := 100, updated_at := 0 }]
        payments := [addPaymentPartial_row "o1"
          { payment_type := PaymentType.pix, amount := 10, notes := none } "p1" 3] }).2 ?_⟩
  norm_num [addPaymentPartial, addPaymentPartial_row, insert_payment,
    update_order_payment_status, is_order_fully_paid, get_order_payment_total, touch_sales,
    List.find?]

end ElitePedidos
